import Mathlib

/-!
Verification development for the gemini polling proxy (Deno/TypeScript).

The repository has two source variants of the same server:
  * `src/main.ts`            — embedded here as `GeminiProxy.handler`
  * `src/unnamed/part_000`   — embedded here as `GeminiProxy.handlerAlt`

Both files define one request handler.  The embedding below is a shallow
one: header maps and the rotation-state map become functions into `Option`,
the body streams become opaque `Nat` tokens, and the outcome of `fetch` is
supplied by an oracle `ProxyRequest → FetchResult` (the network is outside
the program).  The SHA-256 hex digest used for list identity is supplied as
a parameter `digest : String → String`; both variants compute the same
hex digest of the same joined string, so both handlers receive the same
parameter.  Header names are normalised to lowercase, which is what the
JS `Headers` class does.
-/

namespace GeminiProxy

/-- A header map: lowercase header name to value, absent names map to `none`.
Mirrors the JS `Headers` class (which lowercases names). -/
def HeadersMap : Type := String → Option String

/-- The `Headers.set` operation: replace (or add) the value for a name. -/
def hSet (h : HeadersMap) (n v : String) : HeadersMap :=
  fun m => if m = n then some v else h m

/-- The `Headers.delete` operation: remove a name. -/
def hDelete (h : HeadersMap) (n : String) : HeadersMap :=
  fun m => if m = n then none else h m

/-- The incoming HTTP request, as the handler observes it.  The body stream
is an opaque token (the handler never reads it, only forwards it). -/
structure Request where
  method : String
  pathname : String
  search : String
  headers : HeadersMap
  body : Nat

/-- The outbound request handed to `fetch` (src/main.ts lines 116-120,
src/unnamed/part_000 lines 98-102). -/
structure ProxyRequest where
  url : String
  method : String
  headers : HeadersMap
  body : Nat

/-- An upstream response as observed through `fetch`. -/
structure UResponse where
  status : Nat
  statusText : String
  body : Nat
  headers : HeadersMap

/-- Result of one `fetch` call: either a thrown network error (the `catch`
branch) or a response. -/
inductive FetchResult where
  | failure : FetchResult
  | response : UResponse → FetchResult

/-- Body of a response the handler returns: `null` (the preflight), a
synthesized JSON string, or the upstream body stream passed through. -/
inductive RBody where
  | empty : RBody
  | text : String → RBody
  | upstream : Nat → RBody
deriving DecidableEq

/-- A response the handler returns to its caller. -/
structure HResponse where
  status : Nat
  statusText : String
  body : RBody
  headers : HeadersMap

/-- The in-memory rotation-state map (`rotationState` in both sources):
list-identity digest to stored next start index. -/
def RotState : Type := String → Option Nat

/-- `rotationState.set(h, v)`. -/
def setState (st : RotState) (h : String) (v : Nat) : RotState :=
  fun x => if x = h then some v else st x

/-- External configuration read from the environment in both sources:
`API_KEY` and `TOKENS`. -/
structure Config where
  PROXY_MASTER_KEY : Option String
  BUILT_IN_GOOGLE_KEYS : Option String

/-- The fixed upstream origin (`GOOGLE_API_HOST` in both sources). -/
def GOOGLE_API_HOST : String := "https://generativelanguage.googleapis.com"

/-- `new URL(GOOGLE_API_HOST).host`. -/
def googleHost : String := "generativelanguage.googleapis.com"

/-- `Response.ok` in the Fetch standard: status in the range 200-299. -/
def okStatus (s : Nat) : Bool := decide (200 ≤ s ∧ s < 300)

/-- The retry condition `response.status >= 400 && response.status < 500`. -/
def is4xx (s : Nat) : Bool := decide (400 ≤ s ∧ s < 500)

/-- A fetch result that makes the loop continue with the next key:
a thrown network error, or a response with a 4xx status. -/
def retryable : FetchResult → Bool
  | FetchResult.failure => true
  | FetchResult.response resp => is4xx resp.status

/-- Whitespace as trimmed by JS `String.prototype.trim` (ASCII part). -/
def isJsSpace (c : Char) : Bool :=
  c = ' ' || c = '\t' || c = '\n' || c = '\r' || c = '\x0b' || c = '\x0c'

/-- Split a character list on a separator character; JS `split` semantics
(the empty string yields one empty group). -/
def splitChars (sep : Char) : List Char → List (List Char)
  | [] => [[]]
  | c :: cs =>
    if c = sep then [] :: splitChars sep cs
    else
      match splitChars sep cs with
      | [] => [[c]]
      | g :: gs => (c :: g) :: gs

/-- JS `s.split(sep)` for a one-character separator. -/
def jsSplit (s : String) (sep : Char) : List String :=
  (splitChars sep s.data).map String.mk

/-- JS `s.trim()`. -/
def jsTrim (s : String) : String :=
  String.mk (((s.data.dropWhile isJsSpace).reverse.dropWhile isJsSpace).reverse)

/-- Remove the first occurrence of `pat` from a character list; if `pat`
does not occur, the list is unchanged. -/
def removeFirstOcc (pat : List Char) : List Char → List Char
  | [] => []
  | c :: cs =>
    if pat.isPrefixOf (c :: cs) then (c :: cs).drop pat.length
    else c :: removeFirstOcc pat cs

/-- JS `s.replace(pat, "")` with a string pattern: only the first
occurrence is replaced. -/
def replaceFirst (s pat : String) : String :=
  String.mk (removeFirstOcc pat.data s.data)

/-- JS `keys.join()` / `keys.join(",")`. -/
def joinComma : List String → String
  | [] => ""
  | [k] => k
  | k :: rest => k ++ "," ++ joinComma rest

/-- `headers.get("Authorization")?.replace("Bearer ", "")`. -/
def clientTokenOf (req : Request) : Option String :=
  (req.headers "authorization").map (fun s => replaceFirst s "Bearer ")

/-- The guard `PROXY_MASTER_KEY && clientAuthToken !== PROXY_MASTER_KEY`:
an empty or absent master key is falsy, so the check is skipped. -/
def authRejected (master : Option String) (tok : Option String) : Bool :=
  match master with
  | none => false
  | some m => if m = "" then false else decide (tok ≠ some m)

/-- JS `a || b` on nullable strings: `a` wins exactly when it is present
and non-empty. -/
def jsOr (a b : Option String) : Option String :=
  match a with
  | some s => if s = "" then b else some s
  | none => b

/-- `s.split(",").map(k => k.trim()).filter(Boolean)`. -/
def parseKeys (s : String) : List String :=
  ((jsSplit s ',').map jsTrim).filter (fun k => k ≠ "")

/-- Headers of the outbound request (src/main.ts lines 107-112): copy the
inbound headers, overwrite `host`, set `x-goog-api-key` to the selected
key, delete `Authorization` and `x-google-api-key`. -/
def buildProxyHeaders (h : HeadersMap) (key : String) : HeadersMap :=
  hDelete (hDelete (hSet (hSet h "host" googleHost) "x-goog-api-key" key) "authorization")
    "x-google-api-key"

/-- The outbound request for one key attempt. -/
def mkProxyRequest (req : Request) (targetUrl key : String) : ProxyRequest :=
  { url := targetUrl, method := req.method, headers := buildProxyHeaders req.headers key,
    body := req.body }

/-- The fetch outcome of trying key number `k`, as a function of the oracle:
the loop body builds the outbound request from the inbound one, the target
URL `GOOGLE_API_HOST + pathname + search`, and `googleApiKeys[k]`. -/
def attemptOf (fetchRes : ProxyRequest → FetchResult) (req : Request) (keys : List String) :
    Nat → FetchResult :=
  fun k => fetchRes (mkProxyRequest req (GOOGLE_API_HOST ++ req.pathname ++ req.search)
    (keys.getD k ""))

/-- `keysHash = sha256(googleApiKeys.join())` (default join separator ","). -/
def keysHashOf (digest : String → String) (keys : List String) : String :=
  digest (joinComma keys)

/-- Outcome of the retry loop of src/main.ts lines 102-147: a success return
at a key, a non-retryable passthrough return at a key, or falling off the
end of the loop. -/
inductive LoopOutcome where
  | success : Nat → UResponse → LoopOutcome
  | terminal : Nat → UResponse → LoopOutcome
  | exhausted : LoopOutcome

/-- The retry loop, recursing on the number `r` of iterations left; the
loop counter is `i`, so the key tried is `(start + i) % n`.  Mirrors
`for (let i = 0; i < googleApiKeys.length; i++)` of src/main.ts. -/
def tryKeys (attempt : Nat → FetchResult) (n start : Nat) : Nat → Nat → LoopOutcome
  | _, 0 => LoopOutcome.exhausted
  | i, r + 1 =>
    match attempt ((start + i) % n) with
    | FetchResult.failure => tryKeys attempt n start (i + 1) r
    | FetchResult.response resp =>
      if okStatus resp.status then LoopOutcome.success ((start + i) % n) resp
      else if is4xx resp.status then tryKeys attempt n start (i + 1) r
      else LoopOutcome.terminal ((start + i) % n) resp

/-- The sequence of key indices on which the loop of src/main.ts actually
performs a `fetch`, in order. -/
def tryTrace (attempt : Nat → FetchResult) (n start : Nat) : Nat → Nat → List Nat
  | _, 0 => []
  | i, r + 1 =>
    match attempt ((start + i) % n) with
    | FetchResult.failure => (start + i) % n :: tryTrace attempt n start (i + 1) r
    | FetchResult.response resp =>
      if okStatus resp.status then [(start + i) % n]
      else if is4xx resp.status then (start + i) % n :: tryTrace attempt n start (i + 1) r
      else [(start + i) % n]

/-- The retry loop of src/unnamed/part_000 lines 87-129.  Its control flow
is character-identical to the loop of src/main.ts; only the response built
in the non-retryable branch differs, which lives in `forwardAlt` below. -/
def tryKeysAlt (attempt : Nat → FetchResult) (n start : Nat) : Nat → Nat → LoopOutcome
  | _, 0 => LoopOutcome.exhausted
  | i, r + 1 =>
    match attempt ((start + i) % n) with
    | FetchResult.failure => tryKeysAlt attempt n start (i + 1) r
    | FetchResult.response resp =>
      if okStatus resp.status then LoopOutcome.success ((start + i) % n) resp
      else if is4xx resp.status then tryKeysAlt attempt n start (i + 1) r
      else LoopOutcome.terminal ((start + i) % n) resp

/-- The fetch-call trace of the src/unnamed/part_000 loop. -/
def tryTraceAlt (attempt : Nat → FetchResult) (n start : Nat) : Nat → Nat → List Nat
  | _, 0 => []
  | i, r + 1 =>
    match attempt ((start + i) % n) with
    | FetchResult.failure => (start + i) % n :: tryTraceAlt attempt n start (i + 1) r
    | FetchResult.response resp =>
      if okStatus resp.status then [(start + i) % n]
      else if is4xx resp.status then (start + i) % n :: tryTraceAlt attempt n start (i + 1) r
      else [(start + i) % n]

/-- Headers `{ "Content-Type": "application/json" }` of the synthesized
401/400/502 error responses of src/main.ts. -/
def jsonHeaders : HeadersMap :=
  fun n => if n = "content-type" then some "application/json" else none

/-- Headers of the 502 response of src/unnamed/part_000 line 135:
content type plus the permissive CORS allow-origin header. -/
def jsonCorsHeaders : HeadersMap :=
  hSet jsonHeaders "access-control-allow-origin" "*"

/-- Headers of the OPTIONS preflight response (both sources). -/
def preflightHeaders : HeadersMap :=
  fun n =>
    if n = "access-control-allow-origin" then some "*"
    else if n = "access-control-allow-methods" then some "POST, GET, OPTIONS"
    else if n = "access-control-allow-headers" then
      some "Content-Type, Authorization, x-google-api-key"
    else none

/-- `JSON.stringify({ error: "Invalid API Key for proxy service." })`. -/
def invalidProxyKeyBody : String := "\x7b\"error\":\"Invalid API Key for proxy service.\"\x7d"

/-- `JSON.stringify({ error: "No Google API Keys were provided." })`. -/
def noKeysBody : String := "\x7b\"error\":\"No Google API Keys were provided.\"\x7d"

/-- `JSON.stringify({ error: "Google API Keys list is empty." })`. -/
def emptyKeysBody : String := "\x7b\"error\":\"Google API Keys list is empty.\"\x7d"

/-- `JSON.stringify({ error: "All provided Google API Keys failed." })`. -/
def allFailedBody : String := "\x7b\"error\":\"All provided Google API Keys failed.\"\x7d"

/-- A synthesized `new Response(JSON.stringify(...), { status, headers })`. -/
def syntheticResponse (status : Nat) (body : String) (hs : HeadersMap) : HResponse :=
  { status := status, statusText := "", body := RBody.text body, headers := hs }

/-- The 204 preflight response (both sources). -/
def preflightResponse : HResponse :=
  { status := 204, statusText := "", body := RBody.empty, headers := preflightHeaders }

/-- The success return of src/main.ts lines 126-132: upstream status, text
and body stream, upstream headers with the CORS allow-origin header set. -/
def successResponse (resp : UResponse) : HResponse :=
  { status := resp.status, statusText := resp.statusText, body := RBody.upstream resp.body,
    headers := hSet resp.headers "access-control-allow-origin" "*" }

/-- The non-retryable return of src/main.ts line 141 (`return response;`):
the upstream response verbatim, headers untouched. -/
def passResponse (resp : UResponse) : HResponse :=
  { status := resp.status, statusText := resp.statusText, body := RBody.upstream resp.body,
    headers := resp.headers }

/-- The non-retryable return of src/unnamed/part_000 lines 118-124: the
upstream response with the CORS allow-origin header added. -/
def passResponseAlt (resp : UResponse) : HResponse :=
  { status := resp.status, statusText := resp.statusText, body := RBody.upstream resp.body,
    headers := hSet resp.headers "access-control-allow-origin" "*" }

/-- `const startIndex = rotationState.get(keysHash) || 0` (an absent entry
and a stored 0 both give 0, since JS `0 || 0` is 0). -/
def startIndexOf (st : RotState) (h : String) : Nat := (st h).getD 0

/-- Key rotation, retry loop, and response translation of src/main.ts
lines 93-155, entered once a validated non-empty key list exists. -/
def forward (digest : String → String) (fetchRes : ProxyRequest → FetchResult)
    (st : RotState) (req : Request) (keys : List String) : HResponse × RotState :=
  let keysHash := keysHashOf digest keys
  let startIndex := startIndexOf st keysHash
  match tryKeys (attemptOf fetchRes req keys) keys.length startIndex 0 keys.length with
  | LoopOutcome.success k resp =>
    (successResponse resp, setState st keysHash ((k + 1) % keys.length))
  | LoopOutcome.terminal _ resp => (passResponse resp, st)
  | LoopOutcome.exhausted =>
    (syntheticResponse 502 allFailedBody jsonHeaders, setState st keysHash 0)

/-- Key rotation, retry loop, and response translation of
src/unnamed/part_000 lines 79-136. -/
def forwardAlt (digest : String → String) (fetchRes : ProxyRequest → FetchResult)
    (st : RotState) (req : Request) (keys : List String) : HResponse × RotState :=
  let keysHash := keysHashOf digest keys
  let startIndex := startIndexOf st keysHash
  match tryKeysAlt (attemptOf fetchRes req keys) keys.length startIndex 0 keys.length with
  | LoopOutcome.success k resp =>
    (successResponse resp, setState st keysHash ((k + 1) % keys.length))
  | LoopOutcome.terminal _ resp => (passResponseAlt resp, st)
  | LoopOutcome.exhausted =>
    (syntheticResponse 502 allFailedBody jsonCorsHeaders, setState st keysHash 0)

/-- The request handler of src/main.ts (`handler`, lines 46-156), returning
the response together with the rotation-state map after the call. -/
def handler (cfg : Config) (digest : String → String)
    (fetchRes : ProxyRequest → FetchResult) (st : RotState) (req : Request) :
    HResponse × RotState :=
  if req.method = "OPTIONS" then (preflightResponse, st)
  else if authRejected cfg.PROXY_MASTER_KEY (clientTokenOf req) then
    (syntheticResponse 401 invalidProxyKeyBody jsonHeaders, st)
  else
    match jsOr (req.headers "x-google-api-key") cfg.BUILT_IN_GOOGLE_KEYS with
    | none => (syntheticResponse 400 noKeysBody jsonHeaders, st)
    | some s =>
      if s = "" then (syntheticResponse 400 noKeysBody jsonHeaders, st)
      else
        let googleApiKeys := parseKeys s
        if googleApiKeys.length = 0 then
          (syntheticResponse 400 emptyKeysBody jsonHeaders, st)
        else forward digest fetchRes st req googleApiKeys

/-- The request handler of src/unnamed/part_000 (`handler`, lines 37-137). -/
def handlerAlt (cfg : Config) (digest : String → String)
    (fetchRes : ProxyRequest → FetchResult) (st : RotState) (req : Request) :
    HResponse × RotState :=
  if req.method = "OPTIONS" then (preflightResponse, st)
  else if authRejected cfg.PROXY_MASTER_KEY (clientTokenOf req) then
    (syntheticResponse 401 invalidProxyKeyBody jsonHeaders, st)
  else
    match jsOr (req.headers "x-google-api-key") cfg.BUILT_IN_GOOGLE_KEYS with
    | none => (syntheticResponse 400 noKeysBody jsonHeaders, st)
    | some s =>
      if s = "" then (syntheticResponse 400 noKeysBody jsonHeaders, st)
      else
        let googleApiKeys := parseKeys s
        if googleApiKeys.length = 0 then
          (syntheticResponse 400 emptyKeysBody jsonHeaders, st)
        else forwardAlt digest fetchRes st req googleApiKeys

/-! ## Lemmas about the retry loop -/

/-- A retryable fetch result (network error or 4xx) makes one loop
iteration fall through to the next. -/
lemma tryKeys_step (a : Nat → FetchResult) (n s i r : Nat)
    (h : retryable (a ((s + i) % n)) = true) :
    tryKeys a n s i (r + 1) = tryKeys a n s (i + 1) r := by
  cases ha : a ((s + i) % n) with
  | failure => simp only [tryKeys, ha]
  | response resp =>
    rw [ha] at h
    simp only [retryable] at h
    have hok : okStatus resp.status = false := by
      simp only [is4xx, decide_eq_true_eq] at h
      simp only [okStatus, decide_eq_false_iff_not]
      omega
    simp [tryKeys, ha, hok, h]

/-- Same for the trace: a retryable result records its key and continues. -/
lemma tryTrace_step (a : Nat → FetchResult) (n s i r : Nat)
    (h : retryable (a ((s + i) % n)) = true) :
    tryTrace a n s i (r + 1) = (s + i) % n :: tryTrace a n s (i + 1) r := by
  cases ha : a ((s + i) % n) with
  | failure => simp only [tryTrace, ha]
  | response resp =>
    rw [ha] at h
    simp only [retryable] at h
    have hok : okStatus resp.status = false := by
      simp only [is4xx, decide_eq_true_eq] at h
      simp only [okStatus, decide_eq_false_iff_not]
      omega
    simp [tryTrace, ha, hok, h]

/-- Skipping a block of `j` retryable attempts. -/
lemma tryKeys_skip (a : Nat → FetchResult) (n s : Nat) (j : Nat) :
    ∀ (i r : Nat), j ≤ r →
    (∀ m, m < j → retryable (a ((s + (i + m)) % n)) = true) →
    tryKeys a n s i r = tryKeys a n s (i + j) (r - j) := by
  induction j with
  | zero => intro i r _ _; simp
  | succ j ih =>
    intro i r hjr hm
    cases r with
    | zero => omega
    | succ r =>
      have h0 : retryable (a ((s + i) % n)) = true := by
        have := hm 0 (by omega)
        simpa using this
      have e1 : i + (j + 1) = i + 1 + j := by omega
      have e2 : r + 1 - (j + 1) = r - j := by omega
      rw [e1, e2, tryKeys_step a n s i r h0]
      exact ih (i + 1) r (by omega) (fun m hmj => by
        have := hm (m + 1) (by omega)
        rwa [show i + (m + 1) = i + 1 + m from by omega] at this)

/-- Trace of a block of `j` retryable attempts followed by the rest. -/
lemma tryTrace_skip (a : Nat → FetchResult) (n s : Nat) (j : Nat) :
    ∀ (i r : Nat), j ≤ r →
    (∀ m, m < j → retryable (a ((s + (i + m)) % n)) = true) →
    tryTrace a n s i r =
      ((List.range j).map (fun m => (s + (i + m)) % n)) ++ tryTrace a n s (i + j) (r - j) := by
  induction j with
  | zero => intro i r _ _; simp
  | succ j ih =>
    intro i r hjr hm
    cases r with
    | zero => omega
    | succ r =>
      have h0 : retryable (a ((s + i) % n)) = true := by
        have := hm 0 (by omega)
        simpa using this
      have e1 : i + (j + 1) = i + 1 + j := by omega
      have e2 : r + 1 - (j + 1) = r - j := by omega
      rw [e1, e2, tryTrace_step a n s i r h0]
      rw [ih (i + 1) r (by omega) (fun m hmj => by
        have := hm (m + 1) (by omega)
        rwa [show i + (m + 1) = i + 1 + m from by omega] at this)]
      rw [List.range_succ_eq_map, List.map_cons, List.map_map]
      have hf : ((fun m => (s + (i + m)) % n) ∘ Nat.succ) =
          (fun m => (s + (i + 1 + m)) % n) := by
        funext m
        simp only [Function.comp]
        congr 1
        omega
      simp [hf]

/-- A success response terminates the loop with the success outcome. -/
lemma tryKeys_of_ok (a : Nat → FetchResult) (n s i r : Nat) (resp : UResponse)
    (hr : 1 ≤ r) (ha : a ((s + i) % n) = FetchResult.response resp)
    (hok : okStatus resp.status = true) :
    tryKeys a n s i r = LoopOutcome.success ((s + i) % n) resp := by
  cases r with
  | zero => omega
  | succ r => simp [tryKeys, ha, hok]

/-- A response that is neither ok nor 4xx terminates the loop with the
non-retryable outcome. -/
lemma tryKeys_of_terminal (a : Nat → FetchResult) (n s i r : Nat) (resp : UResponse)
    (hr : 1 ≤ r) (ha : a ((s + i) % n) = FetchResult.response resp)
    (hok : okStatus resp.status = false) (h4 : is4xx resp.status = false) :
    tryKeys a n s i r = LoopOutcome.terminal ((s + i) % n) resp := by
  cases r with
  | zero => omega
  | succ r => simp [tryKeys, ha, hok, h4]

/-- If every remaining attempt is retryable the loop falls off the end. -/
lemma tryKeys_exhausted (a : Nat → FetchResult) (n s : Nat) (r i : Nat)
    (hm : ∀ m, m < r → retryable (a ((s + (i + m)) % n)) = true) :
    tryKeys a n s i r = LoopOutcome.exhausted := by
  rw [tryKeys_skip a n s r i r le_rfl hm]
  simp [tryKeys]

/-- A non-retryable attempt records exactly its own key in the trace. -/
lemma tryTrace_singleton (a : Nat → FetchResult) (n s i r : Nat) (hr : 1 ≤ r)
    (hnr : retryable (a ((s + i) % n)) = false) :
    tryTrace a n s i r = [(s + i) % n] := by
  cases r with
  | zero => omega
  | succ r =>
    cases ha : a ((s + i) % n) with
    | failure => rw [ha] at hnr; simp [retryable] at hnr
    | response resp =>
      rw [ha] at hnr
      simp only [retryable] at hnr
      by_cases hok : okStatus resp.status = true
      · simp [tryTrace, ha, hok]
      · simp [tryTrace, ha, hok, hnr]

/-- Length of the trace when the loop stops at attempt `j`. -/
lemma tryTrace_length_of_stop (a : Nat → FetchResult) (n s j r : Nat) (hj : j < r)
    (hprev : ∀ m, m < j → retryable (a ((s + m) % n)) = true)
    (hstop : retryable (a ((s + j) % n)) = false) :
    (tryTrace a n s 0 r).length = j + 1 := by
  rw [tryTrace_skip a n s j 0 r (by omega) (by intro m hm; simpa using hprev m hm)]
  rw [show (0 : Nat) + j = j from by omega]
  rw [tryTrace_singleton a n s j (r - j) (by omega) hstop]
  simp

/-- Every entry of the trace is the loop counter shifted by `start`,
reduced modulo `n`. -/
lemma tryTrace_getD (a : Nat → FetchResult) (n s : Nat) :
    ∀ (r i jj : Nat), jj < (tryTrace a n s i r).length →
    (tryTrace a n s i r).getD jj 0 = (s + (i + jj)) % n := by
  intro r
  induction r with
  | zero => intro i jj h; simp [tryTrace] at h
  | succ r ih =>
    intro i jj h
    cases ha : a ((s + i) % n) with
    | failure =>
      simp only [tryTrace, ha] at h ⊢
      cases jj with
      | zero => simp
      | succ jj =>
        simp only [List.getD_cons_succ, List.length_cons] at h ⊢
        rw [ih (i + 1) jj (by omega)]
        congr 2
        omega
    | response resp =>
      by_cases hok : okStatus resp.status = true
      · simp only [tryTrace, ha, hok, if_true] at h ⊢
        simp only [List.length_singleton] at h
        interval_cases jj
        simp
      · by_cases h4 : is4xx resp.status = true
        · simp only [tryTrace, ha, hok, h4] at h ⊢
          simp only [if_false, if_true, Bool.false_eq_true] at h ⊢
          cases jj with
          | zero => simp
          | succ jj =>
            simp only [List.getD_cons_succ, List.length_cons] at h ⊢
            rw [ih (i + 1) jj (by omega)]
            congr 2
            omega
        · simp only [tryTrace, ha, hok, h4] at h ⊢
          simp only [if_false, Bool.false_eq_true] at h ⊢
          simp only [List.length_singleton] at h
          interval_cases jj
          simp

/-- Every key index the loop ever uses is in range. -/
lemma tryTrace_mem_lt (a : Nat → FetchResult) (n s : Nat) (hn : 0 < n) :
    ∀ (r i k : Nat), k ∈ tryTrace a n s i r → k < n := by
  intro r
  induction r with
  | zero => intro i k h; simp [tryTrace] at h
  | succ r ih =>
    intro i k h
    cases ha : a ((s + i) % n) with
    | failure =>
      simp only [tryTrace, ha, List.mem_cons] at h
      rcases h with h | h
      · rw [h]; exact Nat.mod_lt _ hn
      · exact ih (i + 1) k h
    | response resp =>
      by_cases hok : okStatus resp.status = true
      · simp only [tryTrace, ha, hok, if_true, List.mem_singleton] at h
        rw [h]; exact Nat.mod_lt _ hn
      · by_cases h4 : is4xx resp.status = true
        · simp only [tryTrace, ha, hok, h4, if_false, if_true, Bool.false_eq_true,
            List.mem_cons] at h
          rcases h with h | h
          · rw [h]; exact Nat.mod_lt _ hn
          · exact ih (i + 1) k h
        · simp only [tryTrace, ha, hok, h4, if_false, Bool.false_eq_true,
            List.mem_singleton] at h
          rw [h]; exact Nat.mod_lt _ hn

/-- Adjacent trace entries differ by one step of rotation. -/
lemma tryTrace_adjacent (a : Nat → FetchResult) (n s i r jj : Nat)
    (h : jj + 1 < (tryTrace a n s i r).length) :
    (tryTrace a n s i r).getD (jj + 1) 0 = ((tryTrace a n s i r).getD jj 0 + 1) % n := by
  rw [tryTrace_getD a n s r i (jj + 1) h, tryTrace_getD a n s r i jj (by omega)]
  rw [Nat.mod_add_mod]
  have e : s + (i + (jj + 1)) = s + (i + jj) + 1 := by omega
  rw [e]

/-- The two variants' loops have the same outcome on the same inputs. -/
lemma tryKeysAlt_eq (a : Nat → FetchResult) (n s : Nat) :
    ∀ (r i : Nat), tryKeysAlt a n s i r = tryKeys a n s i r := by
  intro r
  induction r with
  | zero => intro i; rfl
  | succ r ih =>
    intro i
    cases ha : a ((s + i) % n) with
    | failure => simp only [tryKeysAlt, tryKeys, ha]; exact ih (i + 1)
    | response resp =>
      by_cases hok : okStatus resp.status = true
      · simp [tryKeysAlt, tryKeys, ha, hok]
      · by_cases h4 : is4xx resp.status = true
        · simp [tryKeysAlt, tryKeys, ha, hok, h4, ih (i + 1)]
        · simp [tryKeysAlt, tryKeys, ha, hok, h4]

/-- The two variants' loops perform the same fetches in the same order. -/
lemma tryTraceAlt_eq (a : Nat → FetchResult) (n s : Nat) :
    ∀ (r i : Nat), tryTraceAlt a n s i r = tryTrace a n s i r := by
  intro r
  induction r with
  | zero => intro i; rfl
  | succ r ih =>
    intro i
    cases ha : a ((s + i) % n) with
    | failure => simp only [tryTraceAlt, tryTrace, ha]; rw [ih (i + 1)]
    | response resp =>
      by_cases hok : okStatus resp.status = true
      · simp [tryTraceAlt, tryTrace, ha, hok]
      · by_cases h4 : is4xx resp.status = true
        · simp [tryTraceAlt, tryTrace, ha, hok, h4, ih (i + 1)]
        · simp [tryTraceAlt, tryTrace, ha, hok, h4]

/-! ## Lemmas about forward and the handler -/

/-- When validation passes, the src/main.ts handler runs the forwarder on
the parsed key list. -/
lemma handler_eq_forward (cfg : Config) (digest : String → String)
    (fetchRes : ProxyRequest → FetchResult) (st : RotState) (req : Request) (s : String)
    (hm : ¬ req.method = "OPTIONS")
    (hauth : authRejected cfg.PROXY_MASTER_KEY (clientTokenOf req) = false)
    (hs : jsOr (req.headers "x-google-api-key") cfg.BUILT_IN_GOOGLE_KEYS = some s)
    (hne : ¬ s = "")
    (hkeys : ¬ (parseKeys s).length = 0) :
    handler cfg digest fetchRes st req = forward digest fetchRes st req (parseKeys s) := by
  simp only [handler, hs, hauth]
  simp [hm, hne, hkeys]

/-- Same reduction for the src/unnamed/part_000 handler. -/
lemma handlerAlt_eq_forwardAlt (cfg : Config) (digest : String → String)
    (fetchRes : ProxyRequest → FetchResult) (st : RotState) (req : Request) (s : String)
    (hm : ¬ req.method = "OPTIONS")
    (hauth : authRejected cfg.PROXY_MASTER_KEY (clientTokenOf req) = false)
    (hs : jsOr (req.headers "x-google-api-key") cfg.BUILT_IN_GOOGLE_KEYS = some s)
    (hne : ¬ s = "")
    (hkeys : ¬ (parseKeys s).length = 0) :
    handlerAlt cfg digest fetchRes st req = forwardAlt digest fetchRes st req (parseKeys s) := by
  simp only [handlerAlt, hs, hauth]
  simp [hm, hne, hkeys]

/-- Forward outcome when attempt `j` of the loop is the first success. -/
lemma forward_of_success (digest : String → String) (fetchRes : ProxyRequest → FetchResult)
    (st : RotState) (req : Request) (keys : List String) (j : Nat) (resp : UResponse)
    (hj : j < keys.length)
    (hprev : ∀ m, m < j → retryable (attemptOf fetchRes req keys
      ((startIndexOf st (keysHashOf digest keys) + m) % keys.length)) = true)
    (hresp : attemptOf fetchRes req keys
      ((startIndexOf st (keysHashOf digest keys) + j) % keys.length) = FetchResult.response resp)
    (hok : okStatus resp.status = true) :
    forward digest fetchRes st req keys =
      (successResponse resp,
       setState st (keysHashOf digest keys)
         (((startIndexOf st (keysHashOf digest keys) + j) % keys.length + 1) % keys.length)) := by
  have hloop : tryKeys (attemptOf fetchRes req keys) keys.length
      (startIndexOf st (keysHashOf digest keys)) 0 keys.length =
      LoopOutcome.success
        ((startIndexOf st (keysHashOf digest keys) + j) % keys.length) resp := by
    rw [tryKeys_skip _ _ _ j 0 keys.length (by omega)
      (by intro m hm; simpa using hprev m hm)]
    rw [show (0 : Nat) + j = j from by omega]
    exact tryKeys_of_ok _ _ _ _ _ _ (by omega) hresp hok
  simp only [forward, hloop]

/-- Forward outcome when attempt `j` is the first non-retryable response
(neither ok nor 4xx): the response is passed through, state untouched. -/
lemma forward_of_terminal (digest : String → String) (fetchRes : ProxyRequest → FetchResult)
    (st : RotState) (req : Request) (keys : List String) (j : Nat) (resp : UResponse)
    (hj : j < keys.length)
    (hprev : ∀ m, m < j → retryable (attemptOf fetchRes req keys
      ((startIndexOf st (keysHashOf digest keys) + m) % keys.length)) = true)
    (hresp : attemptOf fetchRes req keys
      ((startIndexOf st (keysHashOf digest keys) + j) % keys.length) = FetchResult.response resp)
    (hok : okStatus resp.status = false) (h4 : is4xx resp.status = false) :
    forward digest fetchRes st req keys = (passResponse resp, st) := by
  have hloop : tryKeys (attemptOf fetchRes req keys) keys.length
      (startIndexOf st (keysHashOf digest keys)) 0 keys.length =
      LoopOutcome.terminal
        ((startIndexOf st (keysHashOf digest keys) + j) % keys.length) resp := by
    rw [tryKeys_skip _ _ _ j 0 keys.length (by omega)
      (by intro m hm; simpa using hprev m hm)]
    rw [show (0 : Nat) + j = j from by omega]
    exact tryKeys_of_terminal _ _ _ _ _ _ (by omega) hresp hok h4
  simp only [forward, hloop]

/-- Forward outcome when every attempt is retryable: the 502 aggregate
error, and the stored index is reset to 0. -/
lemma forward_of_exhausted (digest : String → String) (fetchRes : ProxyRequest → FetchResult)
    (st : RotState) (req : Request) (keys : List String)
    (hall : ∀ m, m < keys.length → retryable (attemptOf fetchRes req keys
      ((startIndexOf st (keysHashOf digest keys) + m) % keys.length)) = true) :
    forward digest fetchRes st req keys =
      (syntheticResponse 502 allFailedBody jsonHeaders,
       setState st (keysHashOf digest keys) 0) := by
  have hloop : tryKeys (attemptOf fetchRes req keys) keys.length
      (startIndexOf st (keysHashOf digest keys)) 0 keys.length = LoopOutcome.exhausted := by
    exact tryKeys_exhausted _ _ _ _ _ (by intro m hm; simpa using hall m hm)
  simp only [forward, hloop]

/-! ## Concrete fixtures for witnesses and counterexamples -/

/-- A request carrying the key-list override header `x-google-api-key: a,b`
and nothing else. -/
def demoReq : Request :=
  { method := "POST", pathname := "/v1/models", search := "",
    headers := fun n => if n = "x-google-api-key" then some "a,b" else none, body := 7 }

/-- Open-mode configuration: no master key, no built-in keys. -/
def demoCfg : Config := { PROXY_MASTER_KEY := none, BUILT_IN_GOOGLE_KEYS := none }

/-- An empty rotation-state map. -/
def demoSt : RotState := fun _ => none

/-- A concrete digest function (the claims hold for every digest). -/
def demoDigest : String → String := fun s => s

/-- An upstream response with the given status. -/
def demoResp (status : Nat) : UResponse :=
  { status := status, statusText := "", body := 42, headers := fun _ => none }

/-- An upstream that answers every request with the given status. -/
def demoFetch (status : Nat) : ProxyRequest → FetchResult :=
  fun _ => FetchResult.response (demoResp status)

/-! ## The claims -/

/-- Claim C1 (amended): for every non-empty key list of length N and every
request in which the key tried at index k yields an upstream response with a
status in the 2xx success range (the Fetch-standard `response.ok` range
200-299 — not 2xx/3xx), the forwarder tries no further keys, returns that
upstream response's body and status to the caller, and sets the stored
rotation index for that list's identity to (k + 1) mod N.  Attempt `j` of
the loop tries key index k = (startIndex + j) mod N; the hypotheses say the
attempts before `j` were retryable and attempt `j` returned an ok status. -/
theorem c1_success_advances (cfg : Config) (digest : String → String)
    (fetchRes : ProxyRequest → FetchResult) (st : RotState) (req : Request)
    (s : String) (j : Nat) (resp : UResponse)
    (hm : ¬ req.method = "OPTIONS")
    (hauth : authRejected cfg.PROXY_MASTER_KEY (clientTokenOf req) = false)
    (hs : jsOr (req.headers "x-google-api-key") cfg.BUILT_IN_GOOGLE_KEYS = some s)
    (hne : ¬ s = "")
    (hkeys : ¬ (parseKeys s).length = 0)
    (hj : j < (parseKeys s).length)
    (hprev : ∀ m, m < j → retryable (attemptOf fetchRes req (parseKeys s)
      ((startIndexOf st (keysHashOf digest (parseKeys s)) + m) % (parseKeys s).length)) = true)
    (hresp : attemptOf fetchRes req (parseKeys s)
      ((startIndexOf st (keysHashOf digest (parseKeys s)) + j) % (parseKeys s).length) =
      FetchResult.response resp)
    (hok : okStatus resp.status = true) :
    handler cfg digest fetchRes st req =
      (successResponse resp,
       setState st (keysHashOf digest (parseKeys s))
         (((startIndexOf st (keysHashOf digest (parseKeys s)) + j) % (parseKeys s).length + 1)
           % (parseKeys s).length)) ∧
    (tryTrace (attemptOf fetchRes req (parseKeys s)) (parseKeys s).length
      (startIndexOf st (keysHashOf digest (parseKeys s))) 0 (parseKeys s).length).length =
      j + 1 := by
  have hstop : retryable (attemptOf fetchRes req (parseKeys s)
      ((startIndexOf st (keysHashOf digest (parseKeys s)) + j) % (parseKeys s).length)) =
      false := by
    rw [hresp]
    simp only [retryable, is4xx, decide_eq_false_iff_not]
    simp only [okStatus, decide_eq_true_eq] at hok
    omega
  constructor
  · rw [handler_eq_forward cfg digest fetchRes st req s hm hauth hs hne hkeys]
    exact forward_of_success digest fetchRes st req (parseKeys s) j resp hj hprev hresp hok
  · exact tryTrace_length_of_stop _ _ _ j _ hj hprev hstop

/-- Claim C1, witness: key list `a,b`, empty rotation state, upstream
returns 200 at the first tried key (index 0): the stored index becomes 1
and exactly one key was tried. -/
theorem c1_success_advances_w :
    handler demoCfg demoDigest (demoFetch 200) demoSt demoReq =
      (successResponse (demoResp 200), setState demoSt "a,b" 1) ∧
    (tryTrace (attemptOf (demoFetch 200) demoReq (parseKeys "a,b")) (parseKeys "a,b").length
      (startIndexOf demoSt (keysHashOf demoDigest (parseKeys "a,b"))) 0
      (parseKeys "a,b").length).length = 1 :=
  c1_success_advances demoCfg demoDigest (demoFetch 200) demoSt demoReq "a,b" 0 (demoResp 200)
    (by decide) (by decide) (by decide) (by decide) (by decide) (by decide)
    (fun m hm => absurd hm (by omega)) rfl (by decide)

/-- Claim C1, counterexample to the claim as stated: with key list `a,b`
and the upstream answering 304 — a status inside the claim's "2xx/3xx ok
range" — at the tried key (index 0), the handler does return that 304
response, but it stores no rotation index at all, while the claim demands
the stored index become (0 + 1) mod 2 = 1. -/
theorem c1_counterexample :
    (handler demoCfg demoDigest (demoFetch 304) demoSt demoReq).1.status = 304 ∧
    (handler demoCfg demoDigest (demoFetch 304) demoSt demoReq).2 "a,b" = none ∧
    ¬ (handler demoCfg demoDigest (demoFetch 304) demoSt demoReq).2 "a,b" = some 1 :=
  ⟨by decide, by decide, by decide⟩

/-- Claim C2: for every non-empty key list of length N and every request in
which each of the N attempted keys either fails at the transport level or
returns a 4xx upstream status (i.e. every attempt is retryable), the
handler returns a 502 response whose body is the JSON object saying all
keys failed, and sets the stored rotation index for that list's identity
to 0. -/
theorem c2_all_fail_502_reset (cfg : Config) (digest : String → String)
    (fetchRes : ProxyRequest → FetchResult) (st : RotState) (req : Request) (s : String)
    (hm : ¬ req.method = "OPTIONS")
    (hauth : authRejected cfg.PROXY_MASTER_KEY (clientTokenOf req) = false)
    (hs : jsOr (req.headers "x-google-api-key") cfg.BUILT_IN_GOOGLE_KEYS = some s)
    (hne : ¬ s = "")
    (hkeys : ¬ (parseKeys s).length = 0)
    (hall : ∀ m, m < (parseKeys s).length → retryable (attemptOf fetchRes req (parseKeys s)
      ((startIndexOf st (keysHashOf digest (parseKeys s)) + m) % (parseKeys s).length)) = true) :
    handler cfg digest fetchRes st req =
      (syntheticResponse 502 allFailedBody jsonHeaders,
       setState st (keysHashOf digest (parseKeys s)) 0) := by
  rw [handler_eq_forward cfg digest fetchRes st req s hm hauth hs hne hkeys]
  exact forward_of_exhausted digest fetchRes st req (parseKeys s) hall

/-- Claim C2, witness: key list `a,b`, both keys answered with 429: the
502 aggregate error comes back and the stored index becomes 0. -/
theorem c2_all_fail_502_reset_w :
    handler demoCfg demoDigest (demoFetch 429) demoSt demoReq =
      (syntheticResponse 502 allFailedBody jsonHeaders, setState demoSt "a,b" 0) :=
  c2_all_fail_502_reset demoCfg demoDigest (demoFetch 429) demoSt demoReq "a,b"
    (by decide) (by decide) (by decide) (by decide) (by decide) (by decide)

/-- Claim C3: within one request, after a 4xx at key index k the next
attempt uses key index (k + 1) mod N (first conjunct: consecutive entries
of the fetch trace differ by one rotation step), and failed attempts never
mutate the persisted rotation state: the final state is a function of the
loop's final outcome alone — unchanged when the loop ends in a
non-retryable passthrough, a single write of (k + 1) mod N on success at
key k, and a single write of 0 on exhaustion — so the 4xx and
transport-failure attempts themselves write nothing. -/
theorem c3_retry_next_key_no_write :
    (∀ (a : Nat → FetchResult) (n s i r jj : Nat),
      jj + 1 < (tryTrace a n s i r).length →
      (tryTrace a n s i r).getD (jj + 1) 0 = ((tryTrace a n s i r).getD jj 0 + 1) % n) ∧
    (∀ (digest : String → String) (fetchRes : ProxyRequest → FetchResult) (st : RotState)
      (req : Request) (keys : List String) (k : Nat) (resp : UResponse),
      tryKeys (attemptOf fetchRes req keys) keys.length
        (startIndexOf st (keysHashOf digest keys)) 0 keys.length =
        LoopOutcome.terminal k resp →
      (forward digest fetchRes st req keys).2 = st) ∧
    (∀ (digest : String → String) (fetchRes : ProxyRequest → FetchResult) (st : RotState)
      (req : Request) (keys : List String) (k : Nat) (resp : UResponse),
      tryKeys (attemptOf fetchRes req keys) keys.length
        (startIndexOf st (keysHashOf digest keys)) 0 keys.length =
        LoopOutcome.success k resp →
      (forward digest fetchRes st req keys).2 =
        setState st (keysHashOf digest keys) ((k + 1) % keys.length)) ∧
    (∀ (digest : String → String) (fetchRes : ProxyRequest → FetchResult) (st : RotState)
      (req : Request) (keys : List String),
      tryKeys (attemptOf fetchRes req keys) keys.length
        (startIndexOf st (keysHashOf digest keys)) 0 keys.length = LoopOutcome.exhausted →
      (forward digest fetchRes st req keys).2 =
        setState st (keysHashOf digest keys) 0) := by
  refine ⟨tryTrace_adjacent, ?_, ?_, ?_⟩
  · intro digest fetchRes st req keys k resp htk
    simp only [forward, htk]
  · intro digest fetchRes st req keys k resp htk
    simp only [forward, htk]
  · intro digest fetchRes st req keys htk
    simp only [forward, htk]

/-- Claim C3, witness: with both keys of `a,b` answering 429, the trace is
[0, 1] (attempt after key 0 uses key (0 + 1) mod 2); with a 500 at the
first key, the terminal outcome leaves the state map untouched. -/
theorem c3_retry_next_key_no_write_w :
    (tryTrace (attemptOf (demoFetch 429) demoReq (parseKeys "a,b")) (parseKeys "a,b").length
      (startIndexOf demoSt (keysHashOf demoDigest (parseKeys "a,b"))) 0
      (parseKeys "a,b").length).getD 1 0 =
      ((tryTrace (attemptOf (demoFetch 429) demoReq (parseKeys "a,b")) (parseKeys "a,b").length
        (startIndexOf demoSt (keysHashOf demoDigest (parseKeys "a,b"))) 0
        (parseKeys "a,b").length).getD 0 0 + 1) % (parseKeys "a,b").length ∧
    (forward demoDigest (demoFetch 500) demoSt demoReq (parseKeys "a,b")).2 = demoSt :=
  ⟨c3_retry_next_key_no_write.1 (attemptOf (demoFetch 429) demoReq (parseKeys "a,b"))
      (parseKeys "a,b").length (startIndexOf demoSt (keysHashOf demoDigest (parseKeys "a,b")))
      0 (parseKeys "a,b").length 0 (by decide),
   c3_retry_next_key_no_write.2.1 demoDigest (demoFetch 500) demoSt demoReq (parseKeys "a,b")
      0 (demoResp 500) rfl⟩

/-- Claim C4: if, after a (possibly empty) run of retryable attempts, the
attempt at some key yields a status that is neither in the 2xx/3xx success
range nor in 400-499 (that is, below 200 or at least 500), the handler
immediately returns that upstream response — same status and body, and in
src/main.ts the very same headers — tries no further key (the fetch trace
stops at that attempt), and does not update rotation state. -/
theorem c4_other_status_passthrough (cfg : Config) (digest : String → String)
    (fetchRes : ProxyRequest → FetchResult) (st : RotState) (req : Request)
    (s : String) (j : Nat) (resp : UResponse)
    (hm : ¬ req.method = "OPTIONS")
    (hauth : authRejected cfg.PROXY_MASTER_KEY (clientTokenOf req) = false)
    (hs : jsOr (req.headers "x-google-api-key") cfg.BUILT_IN_GOOGLE_KEYS = some s)
    (hne : ¬ s = "")
    (hkeys : ¬ (parseKeys s).length = 0)
    (hj : j < (parseKeys s).length)
    (hprev : ∀ m, m < j → retryable (attemptOf fetchRes req (parseKeys s)
      ((startIndexOf st (keysHashOf digest (parseKeys s)) + m) % (parseKeys s).length)) = true)
    (hresp : attemptOf fetchRes req (parseKeys s)
      ((startIndexOf st (keysHashOf digest (parseKeys s)) + j) % (parseKeys s).length) =
      FetchResult.response resp)
    (hbad : resp.status < 200 ∨ 500 ≤ resp.status) :
    handler cfg digest fetchRes st req = (passResponse resp, st) ∧
    (tryTrace (attemptOf fetchRes req (parseKeys s)) (parseKeys s).length
      (startIndexOf st (keysHashOf digest (parseKeys s))) 0 (parseKeys s).length).length =
      j + 1 := by
  have hok : okStatus resp.status = false := by
    simp only [okStatus, decide_eq_false_iff_not]
    omega
  have h4 : is4xx resp.status = false := by
    simp only [is4xx, decide_eq_false_iff_not]
    omega
  have hstop : retryable (attemptOf fetchRes req (parseKeys s)
      ((startIndexOf st (keysHashOf digest (parseKeys s)) + j) % (parseKeys s).length)) =
      false := by
    rw [hresp]
    simp only [retryable]
    exact h4
  constructor
  · rw [handler_eq_forward cfg digest fetchRes st req s hm hauth hs hne hkeys]
    exact forward_of_terminal digest fetchRes st req (parseKeys s) j resp hj hprev hresp hok h4
  · exact tryTrace_length_of_stop _ _ _ j _ hj hprev hstop

/-- Claim C4, witness: a 500 at the first tried key of `a,b` is returned
verbatim, the state map is untouched, and only one key was tried. -/
theorem c4_other_status_passthrough_w :
    handler demoCfg demoDigest (demoFetch 500) demoSt demoReq =
      (passResponse (demoResp 500), demoSt) ∧
    (tryTrace (attemptOf (demoFetch 500) demoReq (parseKeys "a,b")) (parseKeys "a,b").length
      (startIndexOf demoSt (keysHashOf demoDigest (parseKeys "a,b"))) 0
      (parseKeys "a,b").length).length = 1 :=
  c4_other_status_passthrough demoCfg demoDigest (demoFetch 500) demoSt demoReq "a,b" 0
    (demoResp 500) (by decide) (by decide) (by decide) (by decide) (by decide) (by decide)
    (fun m hm => absurd hm (by omega)) rfl (by decide)

/-- Helper: an authorization rejection short-circuits the src/main.ts
handler into the 401 JSON error, leaving the state untouched. -/
lemma handler_auth_reject (cfg : Config) (digest : String → String)
    (fetchRes : ProxyRequest → FetchResult) (st : RotState) (req : Request)
    (hm : ¬ req.method = "OPTIONS")
    (hrej : authRejected cfg.PROXY_MASTER_KEY (clientTokenOf req) = true) :
    handler cfg digest fetchRes st req =
      (syntheticResponse 401 invalidProxyKeyBody jsonHeaders, st) := by
  simp [handler, hm, hrej]

/-- Claim C5: for every non-OPTIONS request, if a proxy master credential
is configured (present and non-empty) and the request's extracted bearer
token does not exactly match it, the handler returns 401 with the
structured JSON error body, changes no rotation state, and performs no
upstream call (the result is the same for every fetch oracle); if no
master credential is configured (absent, or empty hence falsy), the
authorization check passes for any or no bearer token. -/
theorem c5_auth_gate :
    (∀ (cfg : Config) (digest : String → String) (fetchRes : ProxyRequest → FetchResult)
      (st : RotState) (req : Request) (m : String),
      ¬ req.method = "OPTIONS" → cfg.PROXY_MASTER_KEY = some m → ¬ m = "" →
      ¬ clientTokenOf req = some m →
      handler cfg digest fetchRes st req =
        (syntheticResponse 401 invalidProxyKeyBody jsonHeaders, st)) ∧
    (∀ (cfg : Config) (digest : String → String)
      (f g : ProxyRequest → FetchResult) (st : RotState) (req : Request) (m : String),
      ¬ req.method = "OPTIONS" → cfg.PROXY_MASTER_KEY = some m → ¬ m = "" →
      ¬ clientTokenOf req = some m →
      handler cfg digest f st req = handler cfg digest g st req) ∧
    (∀ tok : Option String, authRejected none tok = false) ∧
    (∀ tok : Option String, authRejected (some "") tok = false) := by
  have h401 : ∀ (cfg : Config) (digest : String → String)
      (fetchRes : ProxyRequest → FetchResult) (st : RotState) (req : Request) (m : String),
      ¬ req.method = "OPTIONS" → cfg.PROXY_MASTER_KEY = some m → ¬ m = "" →
      ¬ clientTokenOf req = some m →
      handler cfg digest fetchRes st req =
        (syntheticResponse 401 invalidProxyKeyBody jsonHeaders, st) := by
    intro cfg digest fetchRes st req m hm hcfg hmne htok
    have hrej : authRejected cfg.PROXY_MASTER_KEY (clientTokenOf req) = true := by
      rw [hcfg]
      simp [authRejected, hmne, htok]
    exact handler_auth_reject cfg digest fetchRes st req hm hrej
  refine ⟨h401, ?_, ?_, ?_⟩
  · intro cfg digest f g st req m hm hcfg hmne htok
    rw [h401 cfg digest f st req m hm hcfg hmne htok,
      h401 cfg digest g st req m hm hcfg hmne htok]
  · intro tok; rfl
  · intro tok; rfl

/-- Claim C5, witness: master key `secret` configured, request carries no
authorization header: 401 with untouched state, independent of the
upstream; and the open-mode check accepts an arbitrary token. -/
theorem c5_auth_gate_w :
    handler { PROXY_MASTER_KEY := some "secret", BUILT_IN_GOOGLE_KEYS := none }
      demoDigest (demoFetch 200) demoSt demoReq =
      (syntheticResponse 401 invalidProxyKeyBody jsonHeaders, demoSt) ∧
    handler { PROXY_MASTER_KEY := some "secret", BUILT_IN_GOOGLE_KEYS := none }
      demoDigest (demoFetch 200) demoSt demoReq =
      handler { PROXY_MASTER_KEY := some "secret", BUILT_IN_GOOGLE_KEYS := none }
      demoDigest (demoFetch 500) demoSt demoReq ∧
    authRejected none (some "anything") = false :=
  ⟨c5_auth_gate.1 _ demoDigest (demoFetch 200) demoSt demoReq "secret"
      (by decide) rfl (by decide) (by decide),
   c5_auth_gate.2.1 _ demoDigest (demoFetch 200) (demoFetch 500) demoSt demoReq "secret"
      (by decide) rfl (by decide) (by decide),
   c5_auth_gate.2.2.1 (some "anything")⟩

/-- Helper: when the resolved key-list source is absent or empty, the
src/main.ts handler returns the 400 "no keys" error, state untouched. -/
lemma handler_no_keys (cfg : Config) (digest : String → String)
    (fetchRes : ProxyRequest → FetchResult) (st : RotState) (req : Request)
    (hm : ¬ req.method = "OPTIONS")
    (hauth : authRejected cfg.PROXY_MASTER_KEY (clientTokenOf req) = false)
    (hsrc : jsOr (req.headers "x-google-api-key") cfg.BUILT_IN_GOOGLE_KEYS = none ∨
      jsOr (req.headers "x-google-api-key") cfg.BUILT_IN_GOOGLE_KEYS = some "") :
    handler cfg digest fetchRes st req =
      (syntheticResponse 400 noKeysBody jsonHeaders, st) := by
  rcases hsrc with h | h <;> simp [handler, hm, hauth, h]

/-- Claim C6: for every authorized non-OPTIONS request, the effective
key-list source is the override header when present and non-empty, else the
configured default (first two conjuncts, about the resolver `jsOr` the
handler uses); when neither header nor default yields a value (absent or
empty — JS falsy), the handler returns 400 "no keys provided"; when the
chosen source parses to an empty list, the handler returns 400 "keys list
is empty"; the example header " , , " parses to the empty list.  In both
400 cases the equations hold for every fetch oracle, so no upstream call
occurs. -/
theorem c6_key_source_resolution :
    (∀ (b : Option String) (s : String), ¬ s = "" → jsOr (some s) b = some s) ∧
    (∀ (a b : Option String), a = none ∨ a = some "" → jsOr a b = b) ∧
    (∀ (cfg : Config) (digest : String → String) (fetchRes : ProxyRequest → FetchResult)
      (st : RotState) (req : Request),
      ¬ req.method = "OPTIONS" →
      authRejected cfg.PROXY_MASTER_KEY (clientTokenOf req) = false →
      (req.headers "x-google-api-key" = none ∨ req.headers "x-google-api-key" = some "") →
      (cfg.BUILT_IN_GOOGLE_KEYS = none ∨ cfg.BUILT_IN_GOOGLE_KEYS = some "") →
      handler cfg digest fetchRes st req =
        (syntheticResponse 400 noKeysBody jsonHeaders, st)) ∧
    (∀ (cfg : Config) (digest : String → String) (fetchRes : ProxyRequest → FetchResult)
      (st : RotState) (req : Request) (s : String),
      ¬ req.method = "OPTIONS" →
      authRejected cfg.PROXY_MASTER_KEY (clientTokenOf req) = false →
      jsOr (req.headers "x-google-api-key") cfg.BUILT_IN_GOOGLE_KEYS = some s → ¬ s = "" →
      parseKeys s = [] →
      handler cfg digest fetchRes st req =
        (syntheticResponse 400 emptyKeysBody jsonHeaders, st)) ∧
    parseKeys " , , " = [] := by
  refine ⟨?_, ?_, ?_, ?_, by decide⟩
  · intro b s h
    simp [jsOr, h]
  · intro a b h
    rcases h with h | h <;> simp [jsOr, h]
  · intro cfg digest fetchRes st req hm hauth hh hb
    apply handler_no_keys cfg digest fetchRes st req hm hauth
    rcases hh with hh | hh <;> rcases hb with hb | hb <;> simp [jsOr, hh, hb]
  · intro cfg digest fetchRes st req s hm hauth hs hne hempty
    have hlen : (parseKeys s).length = 0 := by rw [hempty]; rfl
    simp only [handler, hs, hauth]
    simp [hm, hne, hlen]

/-- Claim C6, witness: header " , , " (authorized, open mode) receives the
400 "keys list is empty" error; a request with no header and no default
receives the 400 "no keys" error; the override `a,b` beats a default. -/
theorem c6_key_source_resolution_w :
    handler demoCfg demoDigest (demoFetch 200) demoSt
      { method := "POST", pathname := "/p", search := "",
        headers := fun n => if n = "x-google-api-key" then some " , , " else none,
        body := 7 } =
      (syntheticResponse 400 emptyKeysBody jsonHeaders, demoSt) ∧
    handler demoCfg demoDigest (demoFetch 200) demoSt
      { method := "POST", pathname := "/p", search := "", headers := fun _ => none,
        body := 7 } =
      (syntheticResponse 400 noKeysBody jsonHeaders, demoSt) ∧
    jsOr (some "a,b") (some "c,d") = some "a,b" :=
  ⟨c6_key_source_resolution.2.2.2.1 demoCfg demoDigest (demoFetch 200) demoSt _ " , , "
      (by decide) (by decide) (by decide) (by decide) (by decide),
   c6_key_source_resolution.2.2.1 demoCfg demoDigest (demoFetch 200) demoSt _
      (by decide) (by decide) (Or.inl (by decide)) (Or.inl rfl),
   c6_key_source_resolution.1 (some "c,d") "a,b" (by decide)⟩

/-- Claim C7, counterexample to the claim as stated: a 401 synthesized by
the src/main.ts handler (master key `secret` configured, request without a
bearer token) carries no Access-Control-Allow-Origin header at all, while
the claim says every response carries `Access-Control-Allow-Origin: *`. -/
theorem c7_counterexample :
    (handler { PROXY_MASTER_KEY := some "secret", BUILT_IN_GOOGLE_KEYS := none }
      demoDigest (demoFetch 200) demoSt demoReq).1.status = 401 ∧
    (handler { PROXY_MASTER_KEY := some "secret", BUILT_IN_GOOGLE_KEYS := none }
      demoDigest (demoFetch 200) demoSt demoReq).1.headers
      "access-control-allow-origin" = none :=
  ⟨by decide, by decide⟩

/-- Claim C7 (amended): the OPTIONS preflight 204 and the success
passthrough carry `Access-Control-Allow-Origin: *` in both variants; in
the src/unnamed/part_000 variant the 5xx/other passthrough and the 502
error also carry it; the synthesized JSON errors of src/main.ts carry no
CORS header, and its 5xx/other passthrough returns the upstream headers
unmodified (so it carries the header only if the upstream did). -/
theorem c7_cors_amended :
    (∀ (cfg : Config) (digest : String → String) (fetchRes : ProxyRequest → FetchResult)
      (st : RotState) (req : Request), req.method = "OPTIONS" →
      (handler cfg digest fetchRes st req).1.headers "access-control-allow-origin" =
        some "*" ∧
      (handlerAlt cfg digest fetchRes st req).1.headers "access-control-allow-origin" =
        some "*") ∧
    (∀ resp : UResponse,
      (successResponse resp).headers "access-control-allow-origin" = some "*") ∧
    (∀ resp : UResponse,
      (passResponseAlt resp).headers "access-control-allow-origin" = some "*") ∧
    jsonCorsHeaders "access-control-allow-origin" = some "*" ∧
    jsonHeaders "access-control-allow-origin" = none ∧
    (∀ resp : UResponse, (passResponse resp).headers = resp.headers) := by
  refine ⟨?_, ?_, ?_, rfl, rfl, fun resp => rfl⟩
  · intro cfg digest fetchRes st req hm
    constructor <;> simp [handler, handlerAlt, hm, preflightResponse, preflightHeaders]
  · intro resp
    simp [successResponse, hSet]
  · intro resp
    simp [passResponseAlt, hSet]

/-- Claim C7, witness: the preflight responses of both variants carry the
permissive allow-origin header. -/
theorem c7_cors_amended_w :
    (handler demoCfg demoDigest (demoFetch 200) demoSt
      { method := "OPTIONS", pathname := "/p", search := "", headers := fun _ => none,
        body := 0 }).1.headers "access-control-allow-origin" = some "*" ∧
    (handlerAlt demoCfg demoDigest (demoFetch 200) demoSt
      { method := "OPTIONS", pathname := "/p", search := "", headers := fun _ => none,
        body := 0 }).1.headers "access-control-allow-origin" = some "*" :=
  c7_cors_amended.1 demoCfg demoDigest (demoFetch 200) demoSt _ rfl

/-- Claim C8: for every key attempt, the outbound upstream request keeps
the inbound method and body stream, its URL is the inbound path and query
appended verbatim to the fixed upstream origin (fourth conjunct: this is
the URL the handler's attempt function actually fetches), and its headers
equal the inbound ones except that `host` is the upstream host, the
`authorization` and `x-google-api-key` headers are absent, and
`x-goog-api-key` carries the selected key; every other header name maps to
its inbound value. -/
theorem c8_outbound_request (req : Request) (u key : String)
    (fetchRes : ProxyRequest → FetchResult) (keys : List String) (k : Nat) :
    (mkProxyRequest req u key).method = req.method ∧
    (mkProxyRequest req u key).body = req.body ∧
    (mkProxyRequest req u key).url = u ∧
    attemptOf fetchRes req keys k =
      fetchRes (mkProxyRequest req (GOOGLE_API_HOST ++ req.pathname ++ req.search)
        (keys.getD k "")) ∧
    (mkProxyRequest req u key).headers "host" = some googleHost ∧
    (mkProxyRequest req u key).headers "authorization" = none ∧
    (mkProxyRequest req u key).headers "x-google-api-key" = none ∧
    (mkProxyRequest req u key).headers "x-goog-api-key" = some key ∧
    (∀ n : String, ¬ n = "host" → ¬ n = "authorization" → ¬ n = "x-google-api-key" →
      ¬ n = "x-goog-api-key" → (mkProxyRequest req u key).headers n = req.headers n) := by
  refine ⟨rfl, rfl, rfl, rfl, ?_, ?_, ?_, ?_, ?_⟩
  · simp [mkProxyRequest, buildProxyHeaders, hSet, hDelete]
  · simp [mkProxyRequest, buildProxyHeaders, hSet, hDelete]
  · simp [mkProxyRequest, buildProxyHeaders, hSet, hDelete]
  · simp [mkProxyRequest, buildProxyHeaders, hSet, hDelete]
  · intro n h1 h2 h3 h4
    simp [mkProxyRequest, buildProxyHeaders, hSet, hDelete, h1, h2, h3, h4]

/-- Claim C8, witness: the outbound request built from the demo request
with key `a` keeps method and body, rewrites the credential headers, and
leaves an unrelated header (`content-type`) untouched. -/
theorem c8_outbound_request_w :
    (mkProxyRequest demoReq "https://generativelanguage.googleapis.com/v1/models" "a").method =
      demoReq.method ∧
    (mkProxyRequest demoReq "https://generativelanguage.googleapis.com/v1/models" "a").headers
      "x-goog-api-key" = some "a" ∧
    (mkProxyRequest demoReq "https://generativelanguage.googleapis.com/v1/models" "a").headers
      "content-type" = demoReq.headers "content-type" :=
  ⟨(c8_outbound_request demoReq "https://generativelanguage.googleapis.com/v1/models" "a"
      (demoFetch 200) (parseKeys "a,b") 0).1,
   (c8_outbound_request demoReq "https://generativelanguage.googleapis.com/v1/models" "a"
      (demoFetch 200) (parseKeys "a,b") 0).2.2.2.2.2.2.2.1,
   (c8_outbound_request demoReq "https://generativelanguage.googleapis.com/v1/models" "a"
      (demoFetch 200) (parseKeys "a,b") 0).2.2.2.2.2.2.2.2 "content-type"
      (by decide) (by decide) (by decide) (by decide)⟩

/-- Claim C9: for every non-empty key list, the forwarder's final state is
either the initial map or the initial map with a single write, at that
list's identity, of a value strictly below the list length (every write is
(k + 1) mod N for an in-range k, or 0); every key index on which the loop
performs a fetch — even when the stored start index is at or above the
list length — is reduced modulo the list length before indexing, hence in
range; and identities other than this list's are never touched. -/
theorem c9_state_in_range (digest : String → String) (fetchRes : ProxyRequest → FetchResult)
    (st : RotState) (req : Request) (keys : List String) (hne : ¬ keys = []) :
    ((forward digest fetchRes st req keys).2 = st ∨
      ∃ v, v < keys.length ∧
        (forward digest fetchRes st req keys).2 =
          setState st (keysHashOf digest keys) v) ∧
    (∀ k ∈ tryTrace (attemptOf fetchRes req keys) keys.length
      (startIndexOf st (keysHashOf digest keys)) 0 keys.length, k < keys.length) ∧
    (∀ h : String, ¬ h = keysHashOf digest keys →
      (forward digest fetchRes st req keys).2 h = st h) := by
  have hn : 0 < keys.length := List.length_pos.mpr hne
  refine ⟨?_, ?_, ?_⟩
  · cases htk : tryKeys (attemptOf fetchRes req keys) keys.length
        (startIndexOf st (keysHashOf digest keys)) 0 keys.length with
    | success k resp =>
      right
      exact ⟨(k + 1) % keys.length, Nat.mod_lt _ hn, by simp only [forward, htk]⟩
    | terminal k resp =>
      left
      simp only [forward, htk]
    | exhausted =>
      right
      exact ⟨0, hn, by simp only [forward, htk]⟩
  · intro k hk
    exact tryTrace_mem_lt (attemptOf fetchRes req keys) keys.length
      (startIndexOf st (keysHashOf digest keys)) hn keys.length 0 k hk
  · intro h hh
    cases htk : tryKeys (attemptOf fetchRes req keys) keys.length
        (startIndexOf st (keysHashOf digest keys)) 0 keys.length with
    | success k resp =>
      simp only [forward, htk, setState]
      rw [if_neg hh]
    | terminal k resp =>
      simp only [forward, htk]
    | exhausted =>
      simp only [forward, htk, setState]
      rw [if_neg hh]

/-- Claim C9, witness: with a stored start index 5 — at or above the
length 2 of list `a,b` — and a success at the reduced index 5 mod 2 = 1,
the new stored value 0 is still below the list length, every fetched key
index is below 2, and a foreign identity keeps its stored value. -/
theorem c9_state_in_range_w :
    ((forward demoDigest (demoFetch 200)
        (fun h => if h = "a,b" then some 5 else some 9) demoReq (parseKeys "a,b")).2 =
        (fun h => if h = "a,b" then some 5 else some 9) ∨
      ∃ v, v < (parseKeys "a,b").length ∧
        (forward demoDigest (demoFetch 200)
          (fun h => if h = "a,b" then some 5 else some 9) demoReq (parseKeys "a,b")).2 =
          setState (fun h => if h = "a,b" then some 5 else some 9)
            (keysHashOf demoDigest (parseKeys "a,b")) v) ∧
    (∀ k ∈ tryTrace (attemptOf (demoFetch 200) demoReq (parseKeys "a,b"))
      (parseKeys "a,b").length
      (startIndexOf (fun h => if h = "a,b" then some 5 else some 9)
        (keysHashOf demoDigest (parseKeys "a,b"))) 0 (parseKeys "a,b").length,
      k < (parseKeys "a,b").length) ∧
    (∀ h : String, ¬ h = keysHashOf demoDigest (parseKeys "a,b") →
      (forward demoDigest (demoFetch 200)
        (fun h => if h = "a,b" then some 5 else some 9) demoReq (parseKeys "a,b")).2 h =
        (fun h => if h = "a,b" then some 5 else some 9) h) :=
  c9_state_in_range demoDigest (demoFetch 200)
    (fun h => if h = "a,b" then some 5 else some 9) demoReq (parseKeys "a,b") (by decide)

/-- Helper: the two forwarders agree on status, status text, body source
and final state; their response headers agree except that the
src/unnamed/part_000 variant may add the allow-origin header. -/
lemma forwardAlt_agrees (digest : String → String) (fetchRes : ProxyRequest → FetchResult)
    (st : RotState) (req : Request) (keys : List String) :
    ((forwardAlt digest fetchRes st req keys).1.status =
        (forward digest fetchRes st req keys).1.status ∧
      (forwardAlt digest fetchRes st req keys).1.statusText =
        (forward digest fetchRes st req keys).1.statusText ∧
      (forwardAlt digest fetchRes st req keys).1.body =
        (forward digest fetchRes st req keys).1.body ∧
      (forwardAlt digest fetchRes st req keys).2 =
        (forward digest fetchRes st req keys).2) ∧
    ((forwardAlt digest fetchRes st req keys).1.headers =
        (forward digest fetchRes st req keys).1.headers ∨
      (forwardAlt digest fetchRes st req keys).1.headers =
        hSet (forward digest fetchRes st req keys).1.headers
          "access-control-allow-origin" "*") := by
  have halt : tryKeysAlt (attemptOf fetchRes req keys) keys.length
      (startIndexOf st (keysHashOf digest keys)) 0 keys.length =
      tryKeys (attemptOf fetchRes req keys) keys.length
        (startIndexOf st (keysHashOf digest keys)) 0 keys.length :=
    tryKeysAlt_eq _ _ _ keys.length 0
  cases htk : tryKeys (attemptOf fetchRes req keys) keys.length
      (startIndexOf st (keysHashOf digest keys)) 0 keys.length with
  | success k resp =>
    rw [htk] at halt
    constructor
    · simp [forward, forwardAlt, halt, htk]
    · left
      simp only [forward, forwardAlt, halt, htk]
  | terminal k resp =>
    rw [htk] at halt
    constructor
    · simp [forward, forwardAlt, halt, htk, passResponse, passResponseAlt]
    · right
      simp only [forward, forwardAlt, halt, htk]
      rfl
  | exhausted =>
    rw [htk] at halt
    constructor
    · simp [forward, forwardAlt, halt, htk, syntheticResponse]
    · right
      simp only [forward, forwardAlt, halt, htk]
      rfl

/-- Claim C10: on every request, configuration, rotation state and fetch
oracle, the two source variants perform the same fetches on the same key
indices in the same order (third conjunct: their loop traces coincide),
return a response with the same status, status text and body source, and
leave the rotation-state map in the same final state; their response
headers agree except that the src/unnamed/part_000 variant may add the
allow-origin header (which happens on its 5xx-passthrough and 502
responses). -/
theorem c10_variants_agree (cfg : Config) (digest : String → String)
    (fetchRes : ProxyRequest → FetchResult) (st : RotState) (req : Request) :
    ((handlerAlt cfg digest fetchRes st req).1.status =
        (handler cfg digest fetchRes st req).1.status ∧
      (handlerAlt cfg digest fetchRes st req).1.statusText =
        (handler cfg digest fetchRes st req).1.statusText ∧
      (handlerAlt cfg digest fetchRes st req).1.body =
        (handler cfg digest fetchRes st req).1.body ∧
      (handlerAlt cfg digest fetchRes st req).2 =
        (handler cfg digest fetchRes st req).2) ∧
    ((handlerAlt cfg digest fetchRes st req).1.headers =
        (handler cfg digest fetchRes st req).1.headers ∨
      (handlerAlt cfg digest fetchRes st req).1.headers =
        hSet (handler cfg digest fetchRes st req).1.headers
          "access-control-allow-origin" "*") ∧
    (∀ (a : Nat → FetchResult) (n s i r : Nat),
      tryTraceAlt a n s i r = tryTrace a n s i r) := by
  refine ⟨?_, ?_, fun a n s i r => tryTraceAlt_eq a n s r i⟩ <;>
  · by_cases hm : req.method = "OPTIONS"
    · simp [handler, handlerAlt, hm]
    · by_cases hrej : authRejected cfg.PROXY_MASTER_KEY (clientTokenOf req) = true
      · simp [handler, handlerAlt, hm, hrej]
      · have hrejf : authRejected cfg.PROXY_MASTER_KEY (clientTokenOf req) = false :=
          Bool.eq_false_iff.mpr hrej
        cases hsrc : jsOr (req.headers "x-google-api-key") cfg.BUILT_IN_GOOGLE_KEYS with
        | none => simp [handler, handlerAlt, hm, hrejf, hsrc]
        | some s =>
          by_cases hse : s = ""
          · simp [handler, handlerAlt, hm, hrejf, hsrc, hse]
          · by_cases hlen : (parseKeys s).length = 0
            · simp [handler, handlerAlt, hm, hrejf, hsrc, hse, hlen]
            · rw [handler_eq_forward cfg digest fetchRes st req s hm hrejf hsrc hse hlen,
                handlerAlt_eq_forwardAlt cfg digest fetchRes st req s hm hrejf hsrc hse hlen]
              first
              | exact (forwardAlt_agrees digest fetchRes st req (parseKeys s)).1
              | exact (forwardAlt_agrees digest fetchRes st req (parseKeys s)).2

end GeminiProxy
